import Mathlib

/-!
Verification of the plumise-petals agent / proof / telemetry subsystem.

Shallow embedding of the Python sources:
  src/plumise_petals/chain/proof.py     (InferenceProofGenerator, ProofData)
  src/plumise_petals/chain/agent.py     (ChainAgent.register)
  src/plumise_petals/chain/auth.py      (PlumiseAuth ledger reads)
  src/plumise_petals/chain/rewards.py   (RewardTracker.should_claim)
  src/plumise_petals/chain/reporter.py  (OracleReporter loop and send)
  src/plumise_petals/server/metrics.py  (MetricsCollector)
  src/plumise_petals/server/plumise_server.py (PlumiseServer.record_inference)

Bytes are modelled as `List Nat` (each entry one byte value); the keccak256
hash from the web3 library is an external function and is therefore a
parameter of every definition that hashes.  Python exceptions are modelled
with `Except Unit` / `Option`; remote RPC and HTTP outcomes are explicit
inputs so that the error paths of the source are visible in the embedding.
-/

/-- A byte string: a list of byte values. -/
abbrev Bytes := List Nat

/-- UTF-8 bytes of a Python `str` (Python hashes text via its UTF-8 encoding). -/
def strBytes (s : String) : Bytes :=
  s.toUTF8.toList.map (fun b => b.toNat)

/-- Value of one hexadecimal digit character, as in `bytes.fromhex`. -/
def hexDigit (c : Char) : Option Nat :=
  if ('0' ≤ c ∧ c ≤ '9') then some (c.toNat - '0'.toNat)
  else if ('a' ≤ c ∧ c ≤ 'f') then some (c.toNat - 'a'.toNat + 10)
  else if ('A' ≤ c ∧ c ≤ 'F') then some (c.toNat - 'A'.toNat + 10)
  else none

/-- Decode a list of hex characters two at a time, as `bytes.fromhex` does;
fails (Python: raises ValueError) on an odd length or a non-hex character. -/
def hexPairs : List Char → Option Bytes
  | [] => some []
  | [_] => none
  | a :: b :: rest => do
      let hi ← hexDigit a
      let lo ← hexDigit b
      let t ← hexPairs rest
      pure ((16 * hi + lo) :: t)

/-- `bytes.fromhex(addr[2:])`: strip the leading `0x` and decode
(proof.py line 62 and line 128). -/
def addrToBytes (addr : String) : Option Bytes :=
  hexPairs (addr.toList.drop 2)

/-- `bs.rjust(32, b"\x00")`: left-pad with zero bytes to length 32
(a longer input is returned unchanged, as in Python). -/
def leftPad32 (bs : Bytes) : Bytes :=
  List.replicate (32 - bs.length) 0 ++ bs

/-- `n.to_bytes(32, "big")`: 32-byte big-endian encoding. -/
def natToBytes32 (n : Nat) : Bytes :=
  (List.range 32).map (fun i => n / 256 ^ (31 - i) % 256)

/-- Immutable inference proof record (proof.py, `ProofData`).
The agent address is kept in its source form, a checksummed hex string. -/
structure ProofData where
  model_hash : Bytes
  input_hash : Bytes
  output_hash : Bytes
  agent_address : String
  token_count : Nat
  proof_hash : Bytes
deriving Repr, DecidableEq

/-- `InferenceProofGenerator` (proof.py lines 76-96): stores the model name,
the checksummed agent address, and the model hash precomputed at
construction. -/
structure InferenceProofGenerator where
  model_name : String
  agent_address : String
  model_hash : Bytes
deriving Repr, DecidableEq

/-- Constructor of `InferenceProofGenerator` (proof.py lines 84-89): the
model hash is `Web3.keccak(text=model_name)`, computed once.  The checksum
normalisation of the address is the identity on an already-checksummed
address and is not re-modelled. -/
def InferenceProofGenerator.make (keccak : Bytes → Bytes)
    (model_name agent_address : String) : InferenceProofGenerator :=
  ⟨model_name, agent_address, keccak (strBytes model_name)⟩

/-- `Union[str, bytes]` input or output data of one inference. -/
inductive DataInput where
  | text (s : String)
  | raw (b : Bytes)
deriving Repr, DecidableEq

/-- Hash of an input or output (proof.py lines 114-124): text is hashed via
`Web3.keccak(text=...)` (UTF-8 bytes), raw bytes via
`Web3.keccak(primitive=...)`. -/
def hashData (keccak : Bytes → Bytes) : DataInput → Bytes
  | .text s => keccak (strBytes s)
  | .raw b => keccak b

/-- `InferenceProofGenerator.generate_proof` (proof.py lines 98-147).
Failure of `bytes.fromhex` on a malformed stored address is the only
failure point and is modelled as `none`. -/
def generate_proof (keccak : Bytes → Bytes) (g : InferenceProofGenerator)
    (input_data output_data : DataInput) (token_count : Nat) :
    Option ProofData :=
  match addrToBytes g.agent_address with
  | none => none
  | some addr_bytes =>
      let input_hash := hashData keccak input_data
      let output_hash := hashData keccak output_data
      let addr_padded := leftPad32 addr_bytes
      let proof_hash :=
        keccak (g.model_hash ++ input_hash ++ output_hash ++ addr_padded)
      some ⟨g.model_hash, input_hash, output_hash, g.agent_address,
            token_count, proof_hash⟩

/-- `ProofData.encode_precompile_input` (proof.py lines 51-73): the fixed
160-byte layout for the verification precompile. -/
def ProofData.encode_precompile_input (p : ProofData) : Option Bytes :=
  match addrToBytes p.agent_address with
  | none => none
  | some addr_bytes =>
      some (p.model_hash ++ p.input_hash ++ p.output_hash ++
        leftPad32 addr_bytes ++ natToBytes32 p.token_count)

/-!
## Metrics (metrics.py) and the proof buffer

`MetricsCollector` in src/plumise_petals/server/metrics.py holds the three
running counters.  The pending-proof buffer used by its in-repository
callers (`plumise_server.py` line 396 calls `metrics.record_proof(proof)`;
`reporter.py` lines 94 and 191 call `metrics_collector.drain_proofs()`) is
not present in metrics.py; those two operations are modelled from the spec
below.  The float latency accumulator is modelled with exact rationals.
-/

/-- Counter part of `InferenceMetrics` (metrics.py lines 15-29). -/
structure InferenceMetrics where
  total_tokens_processed : Nat
  total_requests : Nat
  total_latency_ms : ℚ
  start_time : ℚ
deriving Repr, DecidableEq

/-- `InferenceMetrics.avg_latency_ms` (metrics.py lines 31-36). -/
def InferenceMetrics.avg_latency_ms (m : InferenceMetrics) : ℚ :=
  if m.total_requests = 0 then 0
  else m.total_latency_ms / m.total_requests

/-- State of a `MetricsCollector` (metrics.py lines 63-72) together with
the pending-proof buffer its callers use. -/
structure MetricsCollector where
  metrics : InferenceMetrics
  proofs : List ProofData
deriving Repr, DecidableEq

/-- `MetricsCollector.record_inference` (metrics.py lines 74-84): add the
token count, count one request, add the latency. -/
def MetricsCollector.record_inference (c : MetricsCollector)
    (tokens : Nat) (latency_ms : ℚ) : MetricsCollector :=
  { c with metrics :=
      { c.metrics with
        total_tokens_processed := c.metrics.total_tokens_processed + tokens
        total_requests := c.metrics.total_requests + 1
        total_latency_ms := c.metrics.total_latency_ms + latency_ms } }

/-- `MetricsCollector.get_snapshot` (metrics.py lines 86-98): a detached
copy of the counters. -/
def MetricsCollector.get_snapshot (c : MetricsCollector) : InferenceMetrics :=
  c.metrics

/-- `MetricsCollector.reset` (metrics.py lines 100-115): snapshot, then
zero the counters keeping `start_time`. -/
def MetricsCollector.reset (c : MetricsCollector) :
    InferenceMetrics × MetricsCollector :=
  (c.metrics,
   { c with metrics :=
      { total_tokens_processed := 0
        total_requests := 0
        total_latency_ms := 0
        start_time := c.metrics.start_time } })

/-- Modelled from the spec: `push_proof(p)` appends a pending `ProofRecord`
to the FIFO buffer (spec section 4.3).  The method itself is missing from
metrics.py; `plumise_server.py` line 396 calls it under the name
`record_proof`. -/
def MetricsCollector.push_proof (c : MetricsCollector) (p : ProofData) :
    MetricsCollector :=
  { c with proofs := c.proofs ++ [p] }

/-- Modelled from the spec: `drain_proofs()` atomically empties the buffer
and returns its contents in insertion order (spec section 4.3).  The method
itself is missing from metrics.py; `reporter.py` lines 94 and 191 call it. -/
def MetricsCollector.drain_proofs (c : MetricsCollector) :
    List ProofData × MetricsCollector :=
  (c.proofs, { c with proofs := [] })

/-- `PlumiseServer.record_inference` (plumise_server.py lines 358-404).
Step 1 always records metrics; step 2 generates the proof inside a
try/except that converts any failure to a `None` result (`gen_fails`
injects the runtime failures the except clause guards against, on top of
the modelled failure mode of `generate_proof` itself); step 3 buffers the
proof for the next oracle report.  The on-chain verification step only
schedules an async task and does not change the result.  The embedding is
a total function: no exception reaches the caller. -/
def server_record_inference (keccak : Bytes → Bytes)
    (g : InferenceProofGenerator) (gen_fails : Bool) (c : MetricsCollector)
    (input_data output_data : DataInput) (token_count : Nat)
    (latency_ms : ℚ) : MetricsCollector × Option ProofData :=
  let c1 := c.record_inference token_count latency_ms
  if gen_fails then (c1, none)
  else
    match generate_proof keccak g input_data output_data token_count with
    | none => (c1, none)
    | some proof => (c1.push_proof proof, some proof)

/-!
## Agent registration (agent.py)

`ChainAgent.register` (agent.py lines 57-132).  The remote ledger is
modelled by an `RpcEnv` giving the outcome of each RPC operation the call
would perform, and the embedding returns the ordered list of RPC calls
actually made, so claims about "no RPC call occurred" and "at most one
transaction submitted" are statements about that trace.
-/

/-- One RPC operation `register` may perform, in source order. -/
inductive RpcCall where
  | getNonce
  | getGasPrice
  | sendRawTransaction
  | waitForReceipt
deriving Repr, DecidableEq

/-- Outcomes the ledger provides for one `register` attempt: each field is
the result of the corresponding RPC operation, `Except.error` meaning the
Python call raised. -/
structure RpcEnv where
  nonce : Except Unit Nat
  gasPrice : Except Unit Nat
  sendRaw : Except Unit Bytes
  receiptStatus : Except Unit Nat
deriving Repr

/-- Mutable state of a `ChainAgent` (agent.py lines 48-49). -/
structure ChainAgent where
  registered : Bool
  attempted : Bool
deriving Repr, DecidableEq

/-- Call data of the registration transaction (agent.py lines 77-92):
name left-padded/truncated to 32 bytes, model hash, 32-byte big-endian
capability count, then the capabilities.  Only meaningful when every
capability is exactly 32 bytes. -/
def register_input_data (name : String) (model_hash : Bytes)
    (capabilities : List Bytes) : Bytes :=
  let name_bytes :=
    let b := (strBytes name).take 32
    b ++ List.replicate (32 - b.length) 0
  name_bytes ++ model_hash ++ natToBytes32 capabilities.length ++
    capabilities.flatten

/-- `ChainAgent.register` (agent.py lines 57-132).  Returns the Python
result (`Except.error` models the ValueError raised for a wrong-length
capability, `Except.ok` the returned boolean), the successor state, and
the trace of RPC calls made.  Order as in the source: the
already-attempted check first (lines 73-75), then input encoding with
capability validation (lines 77-92, before any RPC), then the try block
whose RPC operations run in sequence and whose every failure is caught,
marks the attempt, and returns false (lines 94-132).  The name and model
hash only enter the transaction payload (see `register_input_data`), which
none of the verified claims inspect, so they are unused below. -/
def ChainAgent.register (st : ChainAgent) (env : RpcEnv) (name : String)
    (model_hash : Bytes) (capabilities : List Bytes) :
    Except Unit Bool × ChainAgent × List RpcCall :=
  if st.attempted then
    (.ok st.registered, st, [])
  else if capabilities.any (fun cap => cap.length ≠ 32) then
    (.error (), st, [])
  else
    match env.nonce with
    | .error _ => (.ok false, { st with attempted := true }, [.getNonce])
    | .ok _ =>
      match env.gasPrice with
      | .error _ =>
          (.ok false, { st with attempted := true },
           [.getNonce, .getGasPrice])
      | .ok _ =>
        match env.sendRaw with
        | .error _ =>
            (.ok false, { st with attempted := true },
             [.getNonce, .getGasPrice, .sendRawTransaction])
        | .ok _ =>
          match env.receiptStatus with
          | .error _ =>
              (.ok false, { st with attempted := true },
               [.getNonce, .getGasPrice, .sendRawTransaction,
                .waitForReceipt])
          | .ok status =>
              if status = 1 then
                (.ok true, { registered := true, attempted := true },
                 [.getNonce, .getGasPrice, .sendRawTransaction,
                  .waitForReceipt])
              else
                (.ok false, { st with attempted := true },
                 [.getNonce, .getGasPrice, .sendRawTransaction,
                  .waitForReceipt])

/-- Arguments of one `register` call. -/
structure RegisterArgs where
  name : String
  model_hash : Bytes
  capabilities : List Bytes

/-- A sequence of `register` calls on one `ChainAgent`: threads the state
through and counts the `sendRawTransaction` RPC calls made in total. -/
def registerSeq (st : ChainAgent) :
    List (RegisterArgs × RpcEnv) → ChainAgent × Nat
  | [] => (st, 0)
  | (a, env) :: rest =>
      let r := st.register env a.name a.model_hash a.capabilities
      let tail := registerSeq r.2.1 rest
      (tail.1, r.2.2.count .sendRawTransaction + tail.2)

/-!
## Identity ledger reads (auth.py)

Each read is a function of the outcome the ledger RPC would produce
(`Except.error` meaning the underlying call raised).  Reads that consult
the `AgentRegistry` contract take an `Option`, `none` meaning the registry
address is not configured (`self._registry is None`).
-/

/-- Parsed agent record (auth.py lines 23-32, `AgentInfo`). -/
structure AgentInfo where
  address : String
  name : String
  metadata : String
  status : Nat
  registered_at : Nat
  last_active : Nat
  total_tasks : Nat
deriving Repr, DecidableEq

/-- `PlumiseAuth.is_chain_connected` (auth.py lines 63-69): probe
`w3.eth.block_number`; any exception yields `false`. -/
def is_chain_connected (block_number : Except Unit Nat) : Bool :=
  match block_number with
  | .ok _ => true
  | .error _ => false

/-- `PlumiseAuth.verify_registration` (auth.py lines 71-88): optimistic
`true` when the registry is not configured; contract answer otherwise;
`false` when the contract call raises. -/
def verify_registration (registry : Option (Except Unit Bool)) : Bool :=
  match registry with
  | none => true
  | some (.ok b) => b
  | some (.error _) => false

/-- `PlumiseAuth.is_active` (auth.py lines 90-99): same shape as
`verify_registration`. -/
def is_active (registry : Option (Except Unit Bool)) : Bool :=
  match registry with
  | none => true
  | some (.ok b) => b
  | some (.error _) => false

/-- `PlumiseAuth.get_agent_info` (auth.py lines 101-111): `none` when the
registry is not configured or the contract call raises. -/
def get_agent_info (registry : Option (Except Unit AgentInfo)) :
    Option AgentInfo :=
  match registry with
  | none => none
  | some (.ok info) => some info
  | some (.error _) => none

/-- `PlumiseAuth.get_balance` (auth.py lines 149-151): the body is the bare
`self.w3.eth.get_balance(self.address)` with no try/except, so the RPC
outcome — including a raised exception — propagates to the caller
unchanged. -/
def get_balance (balance : Except Unit Nat) : Except Unit Nat :=
  balance

/-!
## Rewards (rewards.py)
-/

/-- `RewardTracker.get_pending_reward` (rewards.py lines 65-76): 0 when the
pool contract is not configured (`none`) and 0 when the contract call
raises. -/
def get_pending_reward (pool : Option (Except Unit Nat)) : Nat :=
  match pool with
  | none => 0
  | some (.ok v) => v
  | some (.error _) => 0

/-- `RewardTracker.should_claim` (rewards.py lines 103-114): true exactly
when the pending reward is at least `config.claim_threshold_wei`. -/
def should_claim (pool : Option (Except Unit Nat))
    (claim_threshold_wei : Nat) : Bool :=
  if get_pending_reward pool ≥ claim_threshold_wei then true else false

/-!
## Oracle reporter (reporter.py)

`_send_report` is a function of the HTTP outcome; the report loop body is
a step function on the consecutive-failure counter, with loop exit made
explicit so that "the loop never stops on failures" is a statement of the
embedding.
-/

/-- How the body of an HTTP response parses (reporter.py lines 150-166):
not JSON at all, JSON but not an object, or a JSON object whose optional
`status` field is given. -/
inductive ReportBody where
  | notJson
  | jsonNonDict
  | jsonDict (status : Option String)
deriving Repr, DecidableEq

/-- Outcome of the report POST (reporter.py lines 144-185): a response
with its status code and body, a timeout, or a transport error. -/
inductive HttpOutcome where
  | response (status : Nat) (body : ReportBody)
  | timeout
  | clientError
deriving Repr, DecidableEq

/-- `OracleReporter._send_report` (reporter.py lines 113-185), mapping the
HTTP outcome to the returned boolean.  `resp.status < 300` selects the
acceptance branch; inside it a JSON body that is not a dict is rejected
(lines 152-157), a dict with `status == "error"` is rejected (lines
158-163), a body that fails to parse as JSON is accepted (lines 164-166);
any other status, a timeout, or a client error yields `false`. -/
def send_report (outcome : HttpOutcome) : Bool :=
  match outcome with
  | .response status body =>
      if status < 300 then
        match body with
        | .notJson => true
        | .jsonNonDict => false
        | .jsonDict st => if st = some "error" then false else true
      else false
  | .timeout => false
  | .clientError => false

/-- Formalisation of the claim wording for `_send_report` (spec section
4.6): success for any 2xx response unless the body parses as JSON
containing an explicit `status == "error"` field; a 2xx response whose
body is not parseable as JSON is accepted; every non-2xx status,
transport error, or timeout is a failure. -/
def send_report_claimed (outcome : HttpOutcome) : Bool :=
  match outcome with
  | .response status body =>
      if 200 ≤ status ∧ status < 300 then
        match body with
        | .jsonDict st => if st = some "error" then false else true
        | _ => true
      else false
  | .timeout => false
  | .clientError => false

/-- Outcome of one iteration of the report loop body (reporter.py lines
88-111): the send returned `true`, the send returned `false`, or an
unexpected exception escaped the body and was caught by the
`except Exception` clause. -/
inductive IterOutcome where
  | sendOk
  | sendFail
  | iterError
deriving Repr, DecidableEq

/-- One pass of `OracleReporter._report_loop` over the consecutive-failure
counter (reporter.py lines 97-111): success resets it to 0, a failed send
increments it and emits the escalated log exactly when the new value has
reached `_max_failures`, an unexpected exception increments it without the
escalation check.  Returns the new counter and whether the escalated log
was emitted. -/
def reportIter (failures : Nat) (max_failures : Nat) :
    IterOutcome → Nat × Bool
  | .sendOk => (0, false)
  | .sendFail => (failures + 1, decide (max_failures ≤ failures + 1))
  | .iterError => (failures + 1, false)

/-- Event driving one turn of `_report_loop`: either the sleep completes
and an iteration runs, or `stop()` cancelled the task
(`asyncio.CancelledError`, reporter.py lines 107-108, re-raised to end the
loop). -/
inductive LoopEvent where
  | iter (o : IterOutcome)
  | cancel
deriving Repr, DecidableEq

/-- One turn of `OracleReporter._report_loop` (reporter.py lines 85-111):
`none` means the loop exited (the `while self._running` guard saw `false`,
or cancellation), `some n` that it continues with the new
consecutive-failure counter.  The loop exits only when `running` is
`false` or on cancellation — never because of the counter value. -/
def loopTurn (running : Bool) (failures : Nat) :
    LoopEvent → Option Nat
  | .cancel => none
  | .iter o => if running then some (reportIter failures 10 o).1 else none

/-!
## Theorems

One theorem per claim C1-C10 of the specification review, with shared
helper lemmas first.
-/

/-- Pushing a list of proofs appends it to the buffer and leaves the
counters untouched. -/
lemma foldl_push_proof (c : MetricsCollector) (ps : List ProofData) :
    List.foldl MetricsCollector.push_proof c ps =
      { c with proofs := c.proofs ++ ps } := by
  induction ps generalizing c with
  | nil => simp
  | cons p t ih =>
      simp [List.foldl_cons, MetricsCollector.push_proof, ih]

/-- A `register` call on an agent that already attempted registration
returns the cached result, changes nothing and performs no RPC call. -/
lemma register_of_attempted (st : ChainAgent) (env : RpcEnv) (name : String)
    (mh : Bytes) (caps : List Bytes) (h : st.attempted = true) :
    st.register env name mh caps = (.ok st.registered, st, []) := by
  simp [ChainAgent.register, h]

/-- A single `register` call submits at most one transaction. -/
lemma register_count_le_one (st : ChainAgent) (env : RpcEnv) (name : String)
    (mh : Bytes) (caps : List Bytes) :
    (st.register env name mh caps).2.2.count RpcCall.sendRawTransaction ≤ 1 := by
  unfold ChainAgent.register
  by_cases hA : st.attempted = true
  · rw [if_pos hA]; dsimp only; decide
  · rw [if_neg hA]
    by_cases hV : caps.any (fun cap => cap.length ≠ 32) = true
    · rw [if_pos hV]; dsimp only; decide
    · rw [if_neg hV]
      rcases env with ⟨n, gp, sr, rs⟩
      cases n <;> cases gp <;> cases sr <;> cases rs <;> dsimp only <;>
        first
          | decide
          | (split <;> (dsimp only; decide))

/-- After a `register` call, either the attempt flag is set, or the call
was rejected before the try block: state unchanged and no RPC call. -/
lemma register_state_or_attempted (st : ChainAgent) (env : RpcEnv)
    (name : String) (mh : Bytes) (caps : List Bytes) :
    (st.register env name mh caps).2.1.attempted = true ∨
    ((st.register env name mh caps).2.1 = st ∧
     (st.register env name mh caps).2.2 = []) := by
  unfold ChainAgent.register
  by_cases hA : st.attempted = true
  · rw [if_pos hA]; exact Or.inl hA
  · rw [if_neg hA]
    by_cases hV : caps.any (fun cap => cap.length ≠ 32) = true
    · rw [if_pos hV]; exact Or.inr ⟨rfl, rfl⟩
    · rw [if_neg hV]
      rcases env with ⟨n, gp, sr, rs⟩
      cases n <;> cases gp <;> cases sr <;> cases rs <;> dsimp only <;>
        first
          | exact Or.inl rfl
          | (split <;> exact Or.inl rfl)

/-- Once the attempt flag is set, a whole sequence of further `register`
calls changes nothing and submits nothing. -/
lemma registerSeq_of_attempted (l : List (RegisterArgs × RpcEnv))
    (st : ChainAgent) (h : st.attempted = true) :
    registerSeq st l = (st, 0) := by
  induction l with
  | nil => rfl
  | cons x t ih =>
      simp [registerSeq, register_of_attempted st x.2 x.1.name x.1.model_hash
        x.1.capabilities h, ih]

/-- Any sequence of `register` calls on one agent submits at most one
transaction in total. -/
lemma registerSeq_count_le_one (l : List (RegisterArgs × RpcEnv))
    (st : ChainAgent) :
    (registerSeq st l).2 ≤ 1 := by
  induction l generalizing st with
  | nil => simp [registerSeq]
  | cons x t ih =>
      rcases register_state_or_attempted st x.2 x.1.name x.1.model_hash
        x.1.capabilities with hAtt | ⟨hSt, hTr⟩
      · have hTail := registerSeq_of_attempted t _ hAtt
        simp [registerSeq, hTail]
        exact register_count_le_one st x.2 x.1.name x.1.model_hash
          x.1.capabilities
      · simp [registerSeq, hSt, hTr]
        exact ih st

/-- C1: `generate_proof` is deterministic, its `proof_hash` is the hash of
`model_hash ++ input_hash ++ output_hash ++ leftPad32 agent_address`, and
the token count is not part of the preimage: two calls differing only in
token count yield the same `proof_hash`. -/
theorem generate_proof_deterministic_and_preimage
    (keccak : Bytes → Bytes) (g : InferenceProofGenerator)
    (input_data output_data : DataInput) (t t2 : Nat) (ab : Bytes)
    (h : addrToBytes g.agent_address = some ab) :
    generate_proof keccak g input_data output_data t =
      generate_proof keccak g input_data output_data t ∧
    (∃ p, generate_proof keccak g input_data output_data t = some p ∧
      p.proof_hash = keccak (g.model_hash ++ hashData keccak input_data ++
        hashData keccak output_data ++ leftPad32 ab) ∧
      p.token_count = t) ∧
    (generate_proof keccak g input_data output_data t).map
        ProofData.proof_hash =
      (generate_proof keccak g input_data output_data t2).map
        ProofData.proof_hash := by
  refine ⟨rfl, ?_, ?_⟩
  · unfold generate_proof
    rw [h]
    exact ⟨_, rfl, rfl, rfl⟩
  · unfold generate_proof
    rw [h]
    rfl

/-- Example keccak stand-in used by witnesses: any concrete function of
the input bytes will do, since the claims hold for every hash function. -/
def witnessKeccak (bs : Bytes) : Bytes :=
  List.replicate 32 (bs.sum % 256)

/-- Concrete generator used by witnesses. -/
def witnessGenerator : InferenceProofGenerator :=
  InferenceProofGenerator.make witnessKeccak "bigscience/bloom-560m"
    "0x00112233445566778899aAbBcCdDeEfF00112233"

/-- The 20 bytes of the witness generator address. -/
def witnessAddrBytes : Bytes :=
  [0, 17, 34, 51, 68, 85, 102, 119, 136, 153,
   170, 187, 204, 221, 238, 255, 0, 17, 34, 51]

/-- Witness for C1 at concrete inputs: token counts 7 and 9 give the same
proof hash. -/
theorem generate_proof_deterministic_and_preimage_witness :
    (generate_proof witnessKeccak witnessGenerator (.text "prompt")
        (.text "reply") 7).map ProofData.proof_hash =
      (generate_proof witnessKeccak witnessGenerator (.text "prompt")
        (.text "reply") 9).map ProofData.proof_hash :=
  (generate_proof_deterministic_and_preimage witnessKeccak witnessGenerator
    (.text "prompt") (.text "reply") 7 9 witnessAddrBytes (by rfl)).2.2

/-- C2: `PlumiseServer.record_inference` always records the metrics,
returns the generated proof or `none` (it is a total function of its
inputs: no exception reaches the caller), buffers the proof for the next
oracle report exactly when one is returned, and converts any generation
failure to a `none` result with the buffer untouched. -/
theorem record_inference_total_and_buffers
    (keccak : Bytes → Bytes) (g : InferenceProofGenerator) (gen_fails : Bool)
    (c : MetricsCollector) (input_data output_data : DataInput)
    (token_count : Nat) (latency_ms : ℚ) :
    ((server_record_inference keccak g gen_fails c input_data output_data
        token_count latency_ms).1.metrics.total_requests =
          c.metrics.total_requests + 1 ∧
     (server_record_inference keccak g gen_fails c input_data output_data
        token_count latency_ms).1.metrics.total_tokens_processed =
          c.metrics.total_tokens_processed + token_count ∧
     (server_record_inference keccak g gen_fails c input_data output_data
        token_count latency_ms).1.metrics.total_latency_ms =
          c.metrics.total_latency_ms + latency_ms) ∧
    (∀ p, (server_record_inference keccak g gen_fails c input_data
        output_data token_count latency_ms).2 = some p →
      (server_record_inference keccak g gen_fails c input_data output_data
        token_count latency_ms).1.proofs = c.proofs ++ [p]) ∧
    ((gen_fails = true ∨
        generate_proof keccak g input_data output_data token_count = none) →
      (server_record_inference keccak g gen_fails c input_data output_data
        token_count latency_ms).2 = none ∧
      (server_record_inference keccak g gen_fails c input_data output_data
        token_count latency_ms).1.proofs = c.proofs) := by
  cases gen_fails with
  | true =>
      refine ⟨⟨rfl, rfl, rfl⟩, ?_, fun _ => ⟨rfl, rfl⟩⟩
      intro p hp
      simp [server_record_inference] at hp
  | false =>
      cases hgp : generate_proof keccak g input_data output_data token_count
        with
      | none =>
          refine ⟨?_, ?_, ?_⟩
          · simp [server_record_inference, hgp,
              MetricsCollector.record_inference]
          · intro p hp
            simp [server_record_inference, hgp] at hp
          · intro _
            simp [server_record_inference, hgp,
              MetricsCollector.record_inference]
      | some q =>
          refine ⟨?_, ?_, ?_⟩
          · simp [server_record_inference, hgp,
              MetricsCollector.record_inference,
              MetricsCollector.push_proof]
          · intro p hp
            simp [server_record_inference, hgp] at hp
            subst hp
            simp [server_record_inference, hgp,
              MetricsCollector.record_inference,
              MetricsCollector.push_proof]
          · intro hfail
            rcases hfail with hfail | hfail
            · exact absurd hfail (by simp)
            · simp [hgp] at hfail

/-- Empty collector used by witnesses. -/
def witnessCollector : MetricsCollector :=
  ⟨⟨0, 0, 0, 0⟩, []⟩

/-- Witness for C2 at concrete inputs: an injected generation failure
yields an absent result and an unchanged buffer. -/
theorem record_inference_total_and_buffers_witness :
    (server_record_inference witnessKeccak witnessGenerator true
        witnessCollector (.text "in") (.text "out") 3 5).2 = none ∧
    (server_record_inference witnessKeccak witnessGenerator true
        witnessCollector (.text "in") (.text "out") 3 5).1.proofs =
      witnessCollector.proofs :=
  (record_inference_total_and_buffers witnessKeccak witnessGenerator true
    witnessCollector (.text "in") (.text "out") 3 5).2.2 (Or.inl rfl)

/-- C3: the pending-proof buffer is FIFO: after any sequence of pushes,
draining returns the prior buffer contents followed by the pushed proofs
in insertion order, and leaves the buffer empty with the counters
untouched. -/
theorem proof_buffer_fifo_drain (c : MetricsCollector)
    (ps : List ProofData) :
    (List.foldl MetricsCollector.push_proof c ps).drain_proofs =
      (c.proofs ++ ps, { c with proofs := [] }) := by
  rw [foldl_push_proof]
  rfl

/-- C4: registration is idempotent at the process level.  Any sequence of
`register` calls on one `ChainAgent` submits at most one transaction, and
once the attempt flag is set every further call returns the cached boolean
without any RPC call (no nonce fetch, no gas price fetch, no submission,
no receipt wait). -/
theorem register_idempotent_single_submission :
    (∀ (st : ChainAgent) (calls : List (RegisterArgs × RpcEnv)),
      (registerSeq st calls).2 ≤ 1) ∧
    (∀ (st : ChainAgent) (env : RpcEnv) (name : String) (mh : Bytes)
        (caps : List Bytes), st.attempted = true →
      st.register env name mh caps = (.ok st.registered, st, [])) :=
  ⟨fun st calls => registerSeq_count_le_one calls st,
   fun st env name mh caps h => register_of_attempted st env name mh caps h⟩

/-- RPC environment in which every operation succeeds, used by
witnesses. -/
def witnessEnv : RpcEnv :=
  ⟨.ok 0, .ok 1000000000, .ok (List.replicate 32 0), .ok 1⟩

/-- Witness for C4 at a concrete state: a second call on an agent whose
attempt flag is set returns the cached `false` and makes no RPC call. -/
theorem register_idempotent_single_submission_witness :
    (ChainAgent.mk false true).register witnessEnv "agent" [] [] =
      (.ok false, ChainAgent.mk false true, []) :=
  register_idempotent_single_submission.2 (ChainAgent.mk false true)
    witnessEnv "agent" [] [] rfl

/-- C5: a capability whose length is not 32 bytes makes `register` raise
a ValueError synchronously on a first attempt, before any transaction is
built: the state is unchanged and the RPC trace is empty (no nonce fetch,
no gas price fetch, no submission). -/
theorem register_invalid_capability_raises_before_rpc
    (st : ChainAgent) (env : RpcEnv) (name : String) (mh : Bytes)
    (caps : List Bytes) (hA : st.attempted = false)
    (hC : ∃ cap ∈ caps, cap.length ≠ 32) :
    st.register env name mh caps = (.error (), st, []) := by
  unfold ChainAgent.register
  rw [if_neg (by simp [hA])]
  rw [if_pos]
  rcases hC with ⟨cap, hmem, hlen⟩
  rw [List.any_eq_true]
  exact ⟨cap, hmem, by simpa using hlen⟩

/-- Witness for C5: a fresh agent given a 1-byte capability raises with
an empty RPC trace. -/
theorem register_invalid_capability_raises_before_rpc_witness :
    (ChainAgent.mk false false).register witnessEnv "agent"
        (List.replicate 32 0) [[7]] =
      (.error (), ChainAgent.mk false false, []) :=
  register_invalid_capability_raises_before_rpc
    (ChainAgent.mk false false) witnessEnv "agent" (List.replicate 32 0)
    [[7]] rfl ⟨[7], by simp, by simp⟩

/-- C10: once an attempt has been made, `register` returns the cached
result before validating its arguments: even a wrong-length capability
raises nothing and triggers no RPC call. -/
theorem register_cached_skips_validation
    (st : ChainAgent) (env : RpcEnv) (name : String) (mh : Bytes)
    (caps : List Bytes) (hA : st.attempted = true)
    (hC : ∃ cap ∈ caps, cap.length ≠ 32) :
    st.register env name mh caps = (.ok st.registered, st, []) :=
  register_of_attempted st env name mh caps hA

/-- Witness for C10: an agent with the attempt flag set and a bad
capability list still returns the cached result with no RPC call. -/
theorem register_cached_skips_validation_witness :
    (ChainAgent.mk true true).register witnessEnv "agent"
        (List.replicate 32 0) [[7]] =
      (.ok true, ChainAgent.mk true true, []) :=
  register_cached_skips_validation (ChainAgent.mk true true) witnessEnv
    "agent" (List.replicate 32 0) [[7]] rfl ⟨[7], by simp, by simp⟩

/-- C6 counterexample: the claim says the balance query converts any
failure into the conservative default 0, but `get_balance` (auth.py lines
149-151) has no exception handler: on a failing RPC it propagates the
exception and returns no value at all. -/
theorem get_balance_propagates_counterexample :
    get_balance (Except.error ()) = Except.error () ∧
    ¬ ∃ n : Nat, get_balance (Except.error ()) = Except.ok n := by
  refine ⟨rfl, ?_⟩
  rintro ⟨n, h⟩
  simp [get_balance] at h

/-- C6 amended: the connectivity probe, registration check, active-status
check and agent record fetch each catch a failing ledger read and return
the conservative default (`false` or absent); the balance query alone has
no handler and passes the RPC outcome — including a raised exception —
through to its caller. -/
theorem auth_reads_conservative_amended :
    is_chain_connected (.error ()) = false ∧
    verify_registration (some (.error ())) = false ∧
    is_active (some (.error ())) = false ∧
    get_agent_info (some (.error ())) = none ∧
    ∀ balance : Except Unit Nat, get_balance balance = balance :=
  ⟨rfl, rfl, rfl, rfl, fun _ => rfl⟩

/-- C7 counterexample: the claim says any 2xx response whose JSON body
lacks an explicit error status is a success, but `_send_report` (reporter.py
lines 152-157) additionally rejects a 2xx response whose body parses as
JSON that is not an object: at status 200 with a non-dict JSON body the
code returns failure while the claimed behaviour is success. -/
theorem send_report_nondict_counterexample :
    send_report (.response 200 .jsonNonDict) = false ∧
    send_report_claimed (.response 200 .jsonNonDict) = true := by
  exact ⟨rfl, by decide⟩

/-- C7 amended: for every final HTTP status (at least 200), a 2xx response
succeeds exactly when the body is not JSON, or is a JSON object without an
explicit error status — a JSON body that is not an object is rejected as a
failure; every status of 300 or more, every timeout and every transport
error is a failure. -/
theorem send_report_amended :
    (∀ (status : Nat) (body : ReportBody), 200 ≤ status → status < 300 →
      (send_report (.response status body) = true ↔
        (body = .notJson ∨
         ∃ st, body = .jsonDict st ∧ st ≠ some "error"))) ∧
    (∀ (status : Nat) (body : ReportBody), 300 ≤ status →
      send_report (.response status body) = false) ∧
    send_report .timeout = false ∧
    send_report .clientError = false := by
  refine ⟨?_, ?_, rfl, rfl⟩
  · intro s b _ h2
    cases b with
    | notJson => simp [send_report, h2]
    | jsonNonDict => simp [send_report, h2]
    | jsonDict st =>
        by_cases hst : st = some "error" <;>
          simp [send_report, h2, hst]
  · intro s b h3
    have hlt : ¬ s < 300 := by omega
    cases b <;> simp [send_report, hlt]

/-- Witness for C7 amended at concrete inputs: a 2xx non-JSON body is a
success, an HTTP 500 is a failure. -/
theorem send_report_amended_witness :
    (send_report (.response 200 .notJson) = true ↔
      (ReportBody.notJson = .notJson ∨
       ∃ st, ReportBody.notJson = .jsonDict st ∧ st ≠ some "error")) ∧
    send_report (.response 500 .notJson) = false :=
  ⟨send_report_amended.1 200 .notJson (by decide) (by decide),
   send_report_amended.2.1 500 .notJson (by decide)⟩

/-- C8: in the report loop, a failed send increments the
consecutive-failure counter and emits the escalated log exactly when the
new value has reached the ceiling 10, a successful send resets it to 0,
and for every counter value the loop keeps running: a loop turn exits
only when `running` is false or the task is cancelled by `stop`, never
because of the counter. -/
theorem report_loop_counter_and_never_stops :
    (∀ n : Nat, (reportIter n 10 .sendFail).1 = n + 1) ∧
    (∀ n : Nat, (reportIter n 10 .sendOk).1 = 0) ∧
    (∀ n : Nat, (reportIter n 10 .sendFail).2 = decide (10 ≤ n + 1)) ∧
    (∀ (n : Nat) (o : IterOutcome),
      loopTurn true n (.iter o) = some (reportIter n 10 o).1) ∧
    (∀ (n : Nat) (e : LoopEvent), loopTurn false n e = none) := by
  refine ⟨fun n => rfl, fun n => rfl, fun n => rfl, fun n o => rfl, ?_⟩
  intro n e
  cases e <;> rfl

/-- C9: `should_claim` is true exactly when the pending reward is at least
the configured threshold; at one below the threshold it is false, at the
threshold it is true. -/
theorem should_claim_iff_threshold :
    (∀ (pool : Option (Except Unit Nat)) (claim_threshold_wei : Nat),
      should_claim pool claim_threshold_wei =
        decide (claim_threshold_wei ≤ get_pending_reward pool)) ∧
    (∀ claim_threshold_wei : Nat, 1 ≤ claim_threshold_wei →
      should_claim (some (.ok (claim_threshold_wei - 1)))
        claim_threshold_wei = false) ∧
    (∀ claim_threshold_wei : Nat,
      should_claim (some (.ok claim_threshold_wei))
        claim_threshold_wei = true) := by
  refine ⟨?_, ?_, ?_⟩
  · intro pool t
    unfold should_claim
    by_cases h : t ≤ get_pending_reward pool
    · simp [ge_iff_le, h]
    · simp [ge_iff_le, h]
  · intro t ht
    have h : ¬ t ≤ t - 1 := by omega
    simp [should_claim, get_pending_reward, ge_iff_le, h]
  · intro t
    simp [should_claim, get_pending_reward, ge_iff_le]

/-- Witness for C9 at the boundary: threshold 5 rejects pending 4 and
accepts pending 5. -/
theorem should_claim_iff_threshold_witness :
    should_claim (some (.ok 4)) 5 = false ∧
    should_claim (some (.ok 5)) 5 = true :=
  ⟨should_claim_iff_threshold.2.1 5 (by decide),
   should_claim_iff_threshold.2.2 5⟩
